import Mathlib

/-!
Verification of the MatrixClock RTC core against its specification.

This file gives a shallow embedding, in Lean 4, of the parts of the
MatrixClock repository that the specification talks about:

* `datetime_2000.py` (class `Time2000`): the Epoch2000 calendar math
  (`mktime`, `datetime`, `day_of_week`, `_seconds_before_today`).
* the chip-identification probes (`Clock.Chip._identity` in `clock.py`,
  `chip_identity` in `adafruit_ds1307.py` / `adafruit_pcf8523.py`),
  run against an explicit register model.
* the square-wave-frequency getters/setters of the three drivers
  (`adafruit_ds1307.py`, `adafruit_ds3231.py`, `adafruit_pcf8523.py`).
* `Clock.update_chip` in `clock.py` and `TimeKeeper.update_chip` /
  `TimeKeeper.sync_time` in `code.py`, over an explicit clock-chip state.

Conventions used throughout the embedding:

* Python integers are `Int`.  Python's floor division `//` and modulo `%`
  with a *positive* divisor coincide with Lean's Euclidean `/` and `%` on
  `Int`, so those are used directly; Python's `int(x/y)` truncates toward
  zero and is embedded as `Int.tdiv`.
* Python exceptions are `Option`: a function that can raise returns
  `none` where the Python code would raise (the callers shown here either
  catch every exception or let it propagate, and the embedding mirrors
  which of the two happens).
* Python `time.struct_time` is the record `StructTime` below.
-/

namespace MatrixClock

/-- Embedding of `time.struct_time`: the nine fields, as Python integers. -/
structure StructTime where
  tm_year : Int
  tm_mon : Int
  tm_mday : Int
  tm_hour : Int
  tm_min : Int
  tm_sec : Int
  tm_wday : Int
  tm_yday : Int
  tm_isdst : Int
deriving Repr, DecidableEq

namespace Time2000

/-- `Seconds_per_minute = 60` from `datetime_2000.py`. -/
def Seconds_per_minute : Int := 60

/-- `Seconds_per_hour = Seconds_per_minute * 60`. -/
def Seconds_per_hour : Int := Seconds_per_minute * 60

/-- `Seconds_per_day = Seconds_per_hour * 24`. -/
def Seconds_per_day : Int := Seconds_per_hour * 24

/-- `Seconds_per_year = Seconds_per_day * 365`. -/
def Seconds_per_year : Int := Seconds_per_day * 365

/-- `Seconds_per_leap_year = Seconds_per_year + Seconds_per_day`. -/
def Seconds_per_leap_year : Int := Seconds_per_year + Seconds_per_day

/-- `Seconds_per_quadrennial = Seconds_per_leap_year + 3 * Seconds_per_year`. -/
def Seconds_per_quadrennial : Int := Seconds_per_leap_year + (3 * Seconds_per_year)

/-- The class attribute `Time2000.cumulative_days`: cumulative days before
each month in a non-leap year. -/
def cumulative_days : List Int := [0, 31, 59, 90, 120, 151, 181, 212, 243, 273, 304, 334]

/-- The class attribute `Time2000.day_of_week_magic`. -/
def day_of_week_magic : List Int := [6, 2, 1, 4, 6, 2, 4, 0, 3, 5, 1, 3]

/-- Python list indexing `l[i]` on a list of ints: a negative index counts
from the end, and an out-of-range index raises `IndexError` (= `none`). -/
def pyGet (l : List Int) (i : Int) : Option Int :=
  let j : Int := if i < 0 then i + l.length else i
  if 0 ≤ j then l.get? j.toNat else none

/-- `Time2000.day_of_week(year, month, day)` from `datetime_2000.py`:
`year -= month < 3; return (year + int(year/4) + magic[month-1] + day) % 7`.
`int(year/4)` truncates toward zero (`Int.tdiv`); `% 7` is Python floor
modulo, which for the positive divisor 7 is Lean's `%`.  The magic-table
lookup can raise `IndexError` for months outside `[-11, 12]`. -/
def day_of_week (year month day : Int) : Option Int :=
  let y := year - (if month < 3 then 1 else 0)
  (pyGet day_of_week_magic (month - 1)).map fun magic =>
    (y + y.tdiv 4 + magic + day) % 7

/-- `Time2000._seconds_before_today(yr, mon, day)`: seconds from 2000-01-01
to the start of the given day, where `yr` is the two-digit year.  The
cumulative-days lookup can raise `IndexError` for months outside
`[-11, 12]`. -/
def _seconds_before_today (yr mon day : Int) : Option Int :=
  (pyGet cumulative_days (mon - 1)).map fun cum =>
    ((yr * 365 + yr.tdiv 4 + (if yr % 4 > 0 then 1 else 0)) +
      cum + (day - 1) +
      (if 2 < mon ∧ yr % 4 = 0 then 1 else 0)) * Seconds_per_day

/-- `Time2000.mktime(ts)`: seconds since 2000-01-01T00:00:00, computed from
the two-digit year `ts.tm_year % 100`. -/
def mktime (ts : StructTime) : Option Int :=
  (_seconds_before_today (ts.tm_year % 100) ts.tm_mon ts.tm_mday).map fun d =>
    d + ts.tm_hour * Seconds_per_hour + ts.tm_min * Seconds_per_minute + ts.tm_sec

/-- The month-search loop of `Time2000.datetime`: it scans months 12 down
to 1 (Python `for k, cumulative in enumerate(reversed(cumulative_days))`),
adds one to the cumulative count for March..December of a leap year, and
breaks at the first month whose cumulative count is `≤ days`.  If no month
matches (only possible for `days < 0`), the loop falls through with the
last iteration's values `month = 1, cumulative = 0`, which is also what the
recursion's base case returns. -/
def monthFind (leap_year : Bool) (days : Int) : Nat → Int × Int
  | 0 => (1, 0)
  | m + 1 =>
    let month : Int := m + 1
    let cumulative := (cumulative_days.getD m 0) + (if leap_year ∧ month > 2 then 1 else 0)
    if days ≥ cumulative then (month, cumulative) else monthFind leap_year days m

/-- `Time2000.datetime(seconds)`: the `struct_time` for a count of seconds
since 2000-01-01T00:00:00.  The mutating `Seconds` helper class of the
source is embedded by explicit quotient/remainder pairs; the result is
`some` unless the internal `day_of_week` lookup raises, which cannot in
fact happen because `monthFind` always yields a month in 1..12. -/
def datetime (seconds : Int) : Option StructTime :=
  let q := seconds / Seconds_per_quadrennial
  let r0 := seconds % Seconds_per_quadrennial
  let year0 := 2000 + 4 * q
  let step : Int × Int × Bool :=
    if r0 ≥ Seconds_per_leap_year then (year0 + 1, r0 - Seconds_per_leap_year, false)
    else (year0, r0, true)
  match step with
  | (year1, r1, leap_year) =>
    let year := year1 + r1 / Seconds_per_year
    let r2 := r1 % Seconds_per_year
    let days := r2 / Seconds_per_day
    let r3 := r2 % Seconds_per_day
    match monthFind leap_year days 12 with
    | (month, cumulative) =>
      let day := days - cumulative + 1
      let hours := r3 / Seconds_per_hour
      let r4 := r3 % Seconds_per_hour
      let minutes := r4 / Seconds_per_minute
      let secs := r4 % Seconds_per_minute
      (day_of_week year month day).map fun w =>
        ⟨year, month, day, hours, minutes, secs, w, days + 1, -1⟩

end Time2000

/-!
## Register model for chip identification

The three RTC chips sit at I2C address 0x68 and are distinguished purely by
which probe bits exist.  The model below captures the premises the spec
states for the identification algorithm: a bit that is implemented and
writable ("latches") stores what is written and reads it back; a write to
an unimplemented bit is ignored and the bit reads back 0 (`false`); a read
of an absent register raises `OSError` (= `none`).  Register 0x13 bit 0 is
only ever read, so only its presence is modelled.
-/

/-- Which probe locations are implemented on the attached chip:
`latch5` is register 0x05 bit 7, `latch10` is register 0x10 bit 7,
`latch3f` is register 0x3F bit 0, `has13` says register 0x13 is
readable. -/
structure RegModel where
  latch5 : Bool
  latch10 : Bool
  latch3f : Bool
  has13 : Bool
deriving Repr, DecidableEq

/-- The stored values of the three writable probe bits. -/
structure RegState where
  r5b7 : Bool
  r10b7 : Bool
  r3fb0 : Bool
deriving Repr, DecidableEq

/-- Read register 0x05 bit 7: the stored value if the bit is implemented,
else 0. -/
def read5 (m : RegModel) (s : RegState) : Bool := if m.latch5 then s.r5b7 else false

/-- Read register 0x10 bit 7. -/
def read10 (m : RegModel) (s : RegState) : Bool := if m.latch10 then s.r10b7 else false

/-- Read register 0x3F bit 0. -/
def read3f (m : RegModel) (s : RegState) : Bool := if m.latch3f then s.r3fb0 else false

/-- Read register 0x13 bit 0: raises `OSError` when the register is absent
(the value itself is never used by the probes). -/
def read13 (m : RegModel) (s : RegState) : Option Bool :=
  if m.has13 then some s.r3fb0 else none

/-- Write register 0x05 bit 7: latches only if implemented. -/
def write5 (m : RegModel) (s : RegState) (v : Bool) : RegState :=
  if m.latch5 then { s with r5b7 := v } else s

/-- Write register 0x10 bit 7. -/
def write10 (m : RegModel) (s : RegState) (v : Bool) : RegState :=
  if m.latch10 then { s with r10b7 := v } else s

/-- Write register 0x3F bit 0. -/
def write3f (m : RegModel) (s : RegState) (v : Bool) : RegState :=
  if m.latch3f then { s with r3fb0 := v } else s

namespace DS1307

/-- `DS1307.chip_identity` from `adafruit_ds1307.py` (the `chip_identity`
property of `adafruit_ds3231.py` is textually identical): save register
0x05 bit 7, write `True`; if it reads back `True` the chip is a DS3231
(restore the bit); otherwise save register 0x10 bit 7, write `True`; if it
reads back `True` the chip is a DS1307 (restore the bit); otherwise it is
a PCF8523.  Returns the identity string and the final register state. -/
def chip_identity (m : RegModel) (s : RegState) : String × RegState :=
  let r5b7 := read5 m s
  let s1 := write5 m s true
  if read5 m s1 then (("DS3231"), write5 m s1 r5b7)
  else
    let r10b7 := read10 m s1
    let s2 := write10 m s1 true
    if read10 m s2 then (("DS1307"), write10 m s2 r10b7)
    else (("PCF8523"), s2)

end DS1307

namespace PCF8523

/-- `PCF8523.chip_identity` from `adafruit_pcf8523.py`: try to read
register 0x13 bit 0 — an `OSError` means the chip is a DS3231.  Otherwise
save register 0x3F bit 0 and write its complement; if the bit changed the
chip is a DS1307 (restore the bit), else it is a PCF8523. -/
def chip_identity (m : RegModel) (s : RegState) : String × RegState :=
  match read13 m s with
  | none => (("DS3231"), s)
  | some _ =>
    let r3fb0 := read3f m s
    let s1 := write3f m s (!r3fb0)
    if r3fb0 ≠ read3f m s1 then (("DS1307"), write3f m s1 r3fb0)
    else (("PCF8523"), s1)

end PCF8523

namespace Chip

/-- `Clock.Chip._identity` from `clock.py`: the same probe sequence as
`PCF8523.chip_identity` — read register 0x13 bit 0 (`OSError` ⇒ DS3231),
then toggle register 0x3F bit 0 (`r3fb0 == readback` ⇒ PCF8523, else
DS1307 with the bit restored).  The source's `except OSError` branch
around the 0x3F access would leave `dev_id` unbound; the model gives the
0x3F accesses total semantics, so that branch is unreachable here. -/
def _identity (m : RegModel) (s : RegState) : String × RegState :=
  match read13 m s with
  | none => (("DS3231"), s)
  | some _ =>
    let r3fb0 := read3f m s
    let s1 := write3f m s (!r3fb0)
    if r3fb0 = read3f m s1 then (("PCF8523"), s1)
    else (("DS1307"), write3f m s1 r3fb0)

end Chip

/-!
## Square-wave frequency getters and setters

Each driver maps a small set of frequencies (in Hz, 0 = disabled) to a
chip-specific register code.  The getter decodes the current value of the
square-wave control register (its bitfield value is the `Nat` argument);
decoding uses Python tuple indexing, which raises on an out-of-range
index (`none`).  The setter looks the frequency up in a dict and either
returns the code to write (`(code, none)`) or raises
`ValueError` whose message names the rejected value, leaving the
register unchanged (`(control, some message)`). -/

/-- The `ValueError` message raised by all three setters, with the
rejected value formatted into it. -/
def freq_error (frequency : Int) : String :=
  ("square wave frequency " ++ toString frequency ++ " not available")

namespace DS1307

/-- The dict `available_frequencies` of the DS1307 setter. -/
def available_frequencies (f : Int) : Option Nat :=
  if f = 0 then some 0x00 else if f = 1 then some 0x10 else if f = 4096 then some 0x11
  else if f = 8192 then some 0x12 else if f = 32768 then some 0x13 else none

/-- `DS1307.square_wave_frequency` getter: `value` is the 5-bit field at
register 0x07 bits 0..4; `freq_bits = value & 0x3`; a value equal to its
two low bits means the output is disabled (0 Hz), otherwise the frequency
is `(1, 4096, 8192, 32768)[freq_bits]`. -/
def square_wave_frequency_get (control : Nat) : Option Int :=
  let freq_bits := control &&& 0x3
  if control = freq_bits then some 0
  else [1, 4096, 8192, 32768].get? freq_bits

/-- `DS1307.square_wave_frequency` setter: returns the new register value
and `none`, or the old value and the `ValueError` message. -/
def square_wave_frequency_set (control : Nat) (frequency : Int) : Nat × Option String :=
  match available_frequencies frequency with
  | some code => (code, none)
  | none => (control, some (freq_error frequency))

end DS1307

namespace DS3231

/-- The dict `available_frequencies` of the DS3231 setter. -/
def available_frequencies (f : Int) : Option Nat :=
  if f = 0 then some 1 else if f = 1 then some 0 else if f = 1024 then some 2
  else if f = 4096 then some 4 else if f = 8192 then some 6 else none

/-- `DS3231.square_wave_frequency` getter: `value` is the 3-bit field at
register 0x0E bits 2..4 and the frequency is
`(1, 0, 1024, 0, 4096, 0, 8192, 0)[value]`. -/
def square_wave_frequency_get (control : Nat) : Option Int :=
  [1, 0, 1024, 0, 4096, 0, 8192, 0].get? control

/-- `DS3231.square_wave_frequency` setter. -/
def square_wave_frequency_set (control : Nat) (frequency : Int) : Nat × Option String :=
  match available_frequencies frequency with
  | some code => (code, none)
  | none => (control, some (freq_error frequency))

end DS3231

namespace PCF8523

/-- The dict `available_frequencies` of the PCF8523 setter. -/
def available_frequencies (f : Int) : Option Nat :=
  if f = 0 then some 7 else if f = 1 then some 6 else if f = 32 then some 5
  else if f = 1024 then some 4 else if f = 4096 then some 3 else if f = 8192 then some 2
  else if f = 16384 then some 1 else if f = 32768 then some 0 else none

/-- `PCF8523.square_wave_frequency` getter: `value` is the 3-bit field at
register 0x0F bits 3..5 and the frequency is
`(1, 32, 1024, 4096, 8192, 16384, 32768, 0)[value]`. -/
def square_wave_frequency_get (control : Nat) : Option Int :=
  [1, 32, 1024, 4096, 8192, 16384, 32768, 0].get? control

/-- `PCF8523.square_wave_frequency` setter. -/
def square_wave_frequency_set (control : Nat) (frequency : Int) : Nat × Option String :=
  match available_frequencies frequency with
  | some code => (code, none)
  | none => (control, some (freq_error frequency))

end PCF8523

/-!
## The clock state and `Clock.update_chip` / `TimeKeeper.update_chip`

State model for the synchronization layer.  The chip holds a
`struct_time`; reads return it and writes replace it (the model is static:
no time passes during an operation, so `datetime_at_second_boundary`
returns the stored value).  Every chip register access needs the bus:
`busOK = false` makes the first such access raise `OSError`, modelling a
bus error.  The oscillator flag and the sequence of hardware writes
(`Event` trace, in chronological order) are tracked because the spec
constrains when the oscillator is stopped relative to the datetime write.

The drivers' `datetime` setters have chip-specific side effects, taken
from the three driver files: DS3231 writes `disable_oscillator = False`
(and clears `lost_power`) after the register write; PCF8523 writes the
power-management field, the datetime register, then
`disable_oscillator = False`; DS1307 writes only the datetime register.
-/

/-- Which driver `Clock.__init__` selected. -/
inductive ChipKind
  | DS1307
  | DS3231
  | PCF8523
deriving Repr, DecidableEq

/-- Hardware writes performed during `update_chip`, in order. -/
inductive Event
  | oscWrite (value : Bool)
  | dtWrite (ts : StructTime)
deriving Repr, DecidableEq

/-- State of the `Clock` object and the attached chip. -/
structure ClockState where
  chip : ChipKind
  chipTime : StructTime
  disableOsc : Bool
  busOK : Bool
deriving Repr, DecidableEq

/-- The `self.pcf8523` attribute set in `Clock.__init__`:
`True if self.chip.__class__.__name__ == 'PCF8523' else False`. -/
def ClockState.pcf8523 (s : ClockState) : Bool := s.chip = ChipKind.PCF8523

/-- A chip datetime read (`self.chip.datetime`, and also
`datetime_at_second_boundary`, which re-reads until the seconds change and
in this static model returns the stored value): fails on a bus error. -/
def chip_read (s : ClockState) : Option StructTime :=
  if s.busOK then some s.chipTime else none

/-- A write to the chip's `disable_oscillator` bit. -/
def write_osc (s : ClockState) (value : Bool) : Option (ClockState × List Event) :=
  if s.busOK then some ({ s with disableOsc := value }, [Event.oscWrite value]) else none

/-- A write to the chip's `datetime` property, with the per-driver side
effects described above. -/
def write_datetime (s : ClockState) (ts : StructTime) : Option (ClockState × List Event) :=
  if s.busOK then
    match s.chip with
    | ChipKind.DS1307 =>
      some ({ s with chipTime := ts }, [Event.dtWrite ts])
    | ChipKind.DS3231 =>
      some ({ s with chipTime := ts, disableOsc := false },
            [Event.dtWrite ts, Event.oscWrite false])
    | ChipKind.PCF8523 =>
      some ({ s with chipTime := ts, disableOsc := false },
            [Event.dtWrite ts, Event.oscWrite false])
  else none

/-- Python `str.split(sep)` with a one-character separator, on the
character list of the string: consecutive separators yield empty pieces
and the empty string yields `[""]`. -/
def splitOnChar (sep : Char) : List Char → List (List Char)
  | [] => [[]]
  | c :: rest =>
    let r := splitOnChar sep rest
    if c = sep then [] :: r
    else
      match r with
      | h :: t => (c :: h) :: t
      | [] => [[c]]

/-- The digits-to-value loop of `int(str)`: `none` on a non-digit. -/
def digitsValAux : List Char → Nat → Option Nat
  | [], acc => some acc
  | c :: rest, acc =>
    if c.isDigit then digitsValAux rest (acc * 10 + (c.toNat - 48)) else none

/-- Value of a nonempty all-digit character list; `none` otherwise. -/
def digitsVal : List Char → Option Nat
  | [] => none
  | cs => digitsValAux cs 0

/-- Python `int(str)` on the strings this program parses: surrounding
whitespace is stripped, then an optional single sign precedes a nonempty
run of decimal digits; anything else raises `ValueError` (= `none`). -/
def pyInt (cs : List Char) : Option Int :=
  let t := (((cs.dropWhile Char.isWhitespace).reverse.dropWhile Char.isWhitespace).reverse)
  match t with
  | [] => none
  | c :: rest =>
    if c = '+' then (digitsVal rest).map fun n => (n : Int)
    else if c = '-' then (digitsVal rest).map fun n => -(n : Int)
    else (digitsVal t).map fun n => (n : Int)

/-- The parsing prefix of the absolute-date branch of `Clock.update_chip`:
`dt = val.split(' '); ymd = dt[0].split('/'); hms = dt[1].split(':')`
followed by the six `int(...)` conversions, in source order
(month, day, year, hour, minute, second).  Any `IndexError` or
`ValueError` is `none`. -/
def parse6 (val : String) : Option (Int × Int × Int × Int × Int × Int) :=
  let dt := splitOnChar ' ' val.data
  (dt.get? 0).bind fun p0 =>
  (dt.get? 1).bind fun p1 =>
  let ymd := splitOnChar '/' p0
  let hms := splitOnChar ':' p1
  ((ymd.get? 0).bind pyInt).bind fun mon =>
  ((ymd.get? 1).bind pyInt).bind fun day =>
  ((ymd.get? 2).bind pyInt).bind fun year =>
  ((hms.get? 0).bind pyInt).bind fun hour =>
  ((hms.get? 1).bind pyInt).bind fun mn =>
  ((hms.get? 2).bind pyInt).bind fun sec =>
  some (mon, day, year, hour, mn, sec)

/-- The argument of `update_chip`: an `int` delta, the literal string
`'nearest'`, or any other string (an absolute date/time). -/
inductive UpdateVal
  | delta (d : Int)
  | nearest
  | absolute (val : String)
deriving Repr, DecidableEq

namespace Clock

/-- `Clock.update_chip(val)` from `clock.py`.  Returns the value of the
final `return Time2000.mktime(self.chip.datetime)` (or `none`: the
enclosing bare `except:` turns any exception into `return None`), together
with the state and the chronological list of hardware writes performed
before the result or the exception.

* integer `val`: read `datetime_at_second_boundary`, convert with
  `Time2000.mktime`, add `val`, convert back with `Time2000.datetime`
  and write to the chip;
* `'nearest'`: read `self.chip.datetime`, round its epoch seconds down to
  the minute, adding 60 if the seconds field exceeds 30; for a PCF8523
  stop the oscillator; write the rounded time;
* any other string: parse `m/d/y h:m:s`; for a PCF8523 stop the
  oscillator; compute `Time2000.day_of_week` and write the assembled
  `struct_time` (with `tm_yday = tm_isdst = -1`) to the chip. -/
def update_chip (s : ClockState) : UpdateVal → Option Int × ClockState × List Event
  | UpdateVal.delta d =>
    match chip_read s with
    | none => (none, s, [])
    | some dt =>
      match Time2000.mktime dt with
      | none => (none, s, [])
      | some secs =>
        match Time2000.datetime (secs + d) with
        | none => (none, s, [])
        | some ts =>
          match write_datetime s ts with
          | none => (none, s, [])
          | some (s1, tr1) =>
            match chip_read s1 with
            | none => (none, s1, tr1)
            | some dt2 =>
              match Time2000.mktime dt2 with
              | none => (none, s1, tr1)
              | some t => (some t, s1, tr1)
  | UpdateVal.nearest =>
    match chip_read s with
    | none => (none, s, [])
    | some dt =>
      match Time2000.mktime dt with
      | none => (none, s, [])
      | some secs0 =>
        let sec := dt.tm_sec
        let secs1 := secs0 - sec
        let secs := if sec > 30 then secs1 + 60 else secs1
        match (if s.pcf8523 then write_osc s true else some (s, [])) with
        | none => (none, s, [])
        | some (s1, tr1) =>
          match Time2000.datetime secs with
          | none => (none, s1, tr1)
          | some ts =>
            match write_datetime s1 ts with
            | none => (none, s1, tr1)
            | some (s2, tr2) =>
              match chip_read s2 with
              | none => (none, s2, tr1 ++ tr2)
              | some dt2 =>
                match Time2000.mktime dt2 with
                | none => (none, s2, tr1 ++ tr2)
                | some t => (some t, s2, tr1 ++ tr2)
  | UpdateVal.absolute val =>
    match parse6 val with
    | none => (none, s, [])
    | some (mon, day, year, hour, mn, sec) =>
      match (if s.pcf8523 then write_osc s true else some (s, [])) with
      | none => (none, s, [])
      | some (s1, tr1) =>
        match Time2000.day_of_week year mon day with
        | none => (none, s1, tr1)
        | some w =>
          let ts : StructTime := ⟨year, mon, day, hour, mn, sec, w, -1, -1⟩
          match write_datetime s1 ts with
          | none => (none, s1, tr1)
          | some (s2, tr2) =>
            match chip_read s2 with
            | none => (none, s2, tr1 ++ tr2)
            | some dt2 =>
              match Time2000.mktime dt2 with
              | none => (none, s2, tr1 ++ tr2)
              | some t => (some t, s2, tr1 ++ tr2)

end Clock

/-- The `TimeKeeper` state from `code.py`: the locally kept time. -/
structure TimeKeeperState where
  local_time_secs : Int
deriving Repr, DecidableEq

namespace TimeKeeper

/-- `TimeKeeper.sync_time`:
`self.local_time_secs = Time2000.mktime(self.clock.datetime_at_second_boundary)`.
It has no exception handler, so a failure propagates (`none`). -/
def sync_time (cs : ClockState) : Option TimeKeeperState :=
  (chip_read cs).bind fun dt =>
    (Time2000.mktime dt).map fun t => ⟨t⟩

/-- `TimeKeeper.update_chip(val)`: calls `Clock.update_chip`; on `None`
returns the string `'Invalid date/time'` without touching
`local_time_secs`, otherwise calls `sync_time` and returns `None`.
The result is the returned message (if any), the `TimeKeeper` state and
the clock state; the outer `Option` is an exception escaping from
`sync_time` (which this program's states never produce on the success
path). -/
def update_chip (tk : TimeKeeperState) (cs : ClockState) (val : UpdateVal) :
    Option (Option String × TimeKeeperState × ClockState) :=
  match Clock.update_chip cs val with
  | (none, cs1, _) => some (some ("Invalid date/time"), tk, cs1)
  | (some _, cs1, _) => (sync_time cs1).map fun tk1 => (none, tk1, cs1)

end TimeKeeper

/-!
## Validity, ordering and the closed form of `mktime`

`ValidDT` is the claims' input domain: a civil date/time of the years
2000..2099 (in this range a year is a leap year exactly when it is
divisible by 4).  `lexLt` is the lexicographic order on the six
date/time fields.  `epochOf` is a closed form of `Time2000.mktime` on
valid inputs, used to prove monotonicity.
-/

/-- Days in a month (`leap` says February has 29 days). -/
def daysInMonth (m : Int) (leap : Bool) : Int :=
  if m = 1 then 31 else if m = 2 then (if leap then 29 else 28) else if m = 3 then 31
  else if m = 4 then 30 else if m = 5 then 31 else if m = 6 then 30 else if m = 7 then 31
  else if m = 8 then 31 else if m = 9 then 30 else if m = 10 then 31 else if m = 11 then 30
  else 31

/-- A valid date/time within the chip's century, as the claims use the
term: year 2000..2099, month 1..12, a day valid for that month and year,
hour 0..23, minute 0..59, second 0..59. -/
def ValidDT (dt : StructTime) : Prop :=
  2000 ≤ dt.tm_year ∧ dt.tm_year ≤ 2099 ∧
  1 ≤ dt.tm_mon ∧ dt.tm_mon ≤ 12 ∧
  1 ≤ dt.tm_mday ∧ dt.tm_mday ≤ daysInMonth dt.tm_mon (decide ((dt.tm_year - 2000) % 4 = 0)) ∧
  0 ≤ dt.tm_hour ∧ dt.tm_hour ≤ 23 ∧
  0 ≤ dt.tm_min ∧ dt.tm_min ≤ 59 ∧
  0 ≤ dt.tm_sec ∧ dt.tm_sec ≤ 59

instance (dt : StructTime) : Decidable (ValidDT dt) := by
  unfold ValidDT; infer_instance

/-- Lexicographic order on (year, month, day, hour, minute, second). -/
def lexLt (a b : StructTime) : Prop :=
  a.tm_year < b.tm_year ∨ (a.tm_year = b.tm_year ∧
    (a.tm_mon < b.tm_mon ∨ (a.tm_mon = b.tm_mon ∧
      (a.tm_mday < b.tm_mday ∨ (a.tm_mday = b.tm_mday ∧
        (a.tm_hour < b.tm_hour ∨ (a.tm_hour = b.tm_hour ∧
          (a.tm_min < b.tm_min ∨ (a.tm_min = b.tm_min ∧
            a.tm_sec < b.tm_sec)))))))))

instance (a b : StructTime) : Decidable (lexLt a b) := by
  unfold lexLt; infer_instance

/-- The cumulative-days table as a function of the month number 1..12
(`cumulative_days[m-1]`). -/
def cumAt (m : Int) : Int :=
  if m = 1 then 0 else if m = 2 then 31 else if m = 3 then 59 else if m = 4 then 90
  else if m = 5 then 120 else if m = 6 then 151 else if m = 7 then 181 else if m = 8 then 212
  else if m = 9 then 243 else if m = 10 then 273 else if m = 11 then 304 else 334

/-- Days from 2000-01-01 to the start of year `2000 + y` (`0 ≤ y`), as
computed by `_seconds_before_today`: 365 days per year, one leap day per
started quadrennial. -/
def pastYearDays (y : Int) : Int :=
  365 * y + y / 4 + (if y % 4 > 0 then 1 else 0)

/-- Zero-based index of a day within its year. -/
def dayIdx (leap : Bool) (m d : Int) : Int :=
  cumAt m + (d - 1) + (if 2 < m ∧ leap then 1 else 0)

/-- Closed form of `Time2000.mktime` on valid date/times. -/
def epochOf (dt : StructTime) : Int :=
  (pastYearDays (dt.tm_year - 2000) +
    dayIdx (decide ((dt.tm_year - 2000) % 4 = 0)) dt.tm_mon dt.tm_mday) * 86400 +
  dt.tm_hour * 3600 + dt.tm_min * 60 + dt.tm_sec

/-!
## Theorems
-/

/-- C1.  The CalendarMath round-trip law fails on the code: for the valid
date/time 2000-12-31T00:00:00 (day 366 of a leap year),
`Time2000.mktime` yields 31536000, but `Time2000.datetime(31536000)`
is 2001-01-01T00:00:00 — the `year += remaining // Seconds_per_year`
step runs even in the leap-year branch, so the 366th day of every leap
year is shifted into January 1 of the next year.  Consequently both
directions of the round trip fail: `datetime(mktime(dt)) ≠ dt` and
`mktime(datetime(31536000)) = 31622400 ≠ 31536000`, contradicting the
spec's round-trip law and the module's own docstring ("will correctly
represent times throughout the 21st century"). -/
theorem time2000_roundtrip_fails_on_day366 :
    Time2000.mktime ⟨2000, 12, 31, 0, 0, 0, 0, 366, -1⟩ = some 31536000 ∧
    Time2000.datetime 31536000 = some ⟨2001, 1, 1, 0, 0, 0, 1, 1, -1⟩ ∧
    Time2000.mktime ⟨2001, 1, 1, 0, 0, 0, 1, 1, -1⟩ = some 31622400 ∧
    (31622400 : Int) ≠ 31536000 := by
  refine ⟨by decide, by decide, by decide, by decide⟩

/-- C2.  Against the register model (unimplemented bits do not latch and
read 0, absent registers fail reads), the probes classify correctly, for
every starting register state: the reg5/reg10 prober of
`adafruit_ds1307.py`/`adafruit_ds3231.py` answers DS3231 when only
register 0x05 bit 7 latches, DS1307 when only register 0x10 bit 7
latches, and PCF8523 when neither latches; the 0x13/0x3F probers of
`adafruit_pcf8523.py` and `clock.py` answer DS3231 when reading register
0x13 fails, DS1307 when register 0x3F bit 0 latches, and PCF8523 when it
does not. -/
theorem identification_classifies (m : RegModel) (s : RegState) :
    (m.latch5 = true → m.latch10 = false → (DS1307.chip_identity m s).1 = ("DS3231")) ∧
    (m.latch5 = false → m.latch10 = true → (DS1307.chip_identity m s).1 = ("DS1307")) ∧
    (m.latch5 = false → m.latch10 = false → (DS1307.chip_identity m s).1 = ("PCF8523")) ∧
    (m.has13 = false →
      (PCF8523.chip_identity m s).1 = ("DS3231") ∧ (Chip._identity m s).1 = ("DS3231")) ∧
    (m.has13 = true → m.latch3f = true →
      (PCF8523.chip_identity m s).1 = ("DS1307") ∧ (Chip._identity m s).1 = ("DS1307")) ∧
    (m.has13 = true → m.latch3f = false →
      (PCF8523.chip_identity m s).1 = ("PCF8523") ∧ (Chip._identity m s).1 = ("PCF8523")) := by
  obtain ⟨l5, l10, l3f, h13⟩ := m
  obtain ⟨v5, v10, v3f⟩ := s
  cases l5 <;> cases l10 <;> cases l3f <;> cases h13 <;> cases v5 <;> cases v10 <;>
    cases v3f <;> decide

/-- Witness for C2: all six classifications at concrete register models. -/
theorem identification_classifies_witness :
    (DS1307.chip_identity ⟨true, false, false, false⟩ ⟨false, false, false⟩).1 = ("DS3231") ∧
    (DS1307.chip_identity ⟨false, true, false, true⟩ ⟨false, true, false⟩).1 = ("DS1307") ∧
    (DS1307.chip_identity ⟨false, false, false, true⟩ ⟨false, false, false⟩).1 = ("PCF8523") ∧
    (PCF8523.chip_identity ⟨true, false, false, false⟩ ⟨true, false, false⟩).1 = ("DS3231") ∧
    (PCF8523.chip_identity ⟨false, false, true, true⟩ ⟨false, false, true⟩).1 = ("DS1307") ∧
    (PCF8523.chip_identity ⟨false, false, false, true⟩ ⟨false, false, false⟩).1 = ("PCF8523") :=
  ⟨(identification_classifies _ _).1 rfl rfl,
   (identification_classifies _ _).2.1 rfl rfl,
   (identification_classifies _ _).2.2.1 rfl rfl,
   ((identification_classifies _ _).2.2.2.1 rfl).1,
   ((identification_classifies _ _).2.2.2.2.1 rfl rfl).1,
   ((identification_classifies _ _).2.2.2.2.2 rfl rfl).1⟩

/-- C3.  Every identification run leaves the register state exactly as it
found it, whatever the chip model and the starting state — each probe
restores the bit it toggled (or never latched it), in all three outcome
branches of all three probe routines.  Since the final state equals the
initial state, repeated identification never changes the chip's
registers. -/
theorem identification_preserves_registers (m : RegModel) (s : RegState) :
    (DS1307.chip_identity m s).2 = s ∧
    (PCF8523.chip_identity m s).2 = s ∧
    (Chip._identity m s).2 = s := by
  obtain ⟨l5, l10, l3f, h13⟩ := m
  obtain ⟨v5, v10, v3f⟩ := s
  cases l5 <;> cases l10 <;> cases l3f <;> cases h13 <;> cases v5 <;> cases v10 <;>
    cases v3f <;> decide

/-- C4.  `Clock.update_chip('nearest')` is claimed to write, and return,
the chip's reading rounded to a whole minute.  The code computes the
rounded epoch value correctly (`mktime(dt) - dt.tm_sec`, plus 60 iff
`tm_sec > 30`), but converts it through `Time2000.datetime` before
writing and returns `mktime` of the chip's (just written) time — and on
day 366 of a leap year `Time2000.datetime` shifts the date into the next
year.  Concretely: reading 2000-12-31T10:00:29 has epoch 31572029, so the
claimed result is 31572029 − 29 = 31572000 (2000-12-31T10:00:00); the
code instead writes 2001-01-01T10:00:00 to the chip and returns
31658400. -/
theorem update_chip_nearest_day366_divergence :
    Time2000.mktime ⟨2000, 12, 31, 10, 0, 29, 0, 366, -1⟩ = some 31572029 ∧
    (Clock.update_chip ⟨ChipKind.DS1307, ⟨2000, 12, 31, 10, 0, 29, 0, 366, -1⟩, false, true⟩
        UpdateVal.nearest).1 = some 31658400 ∧
    (Clock.update_chip ⟨ChipKind.DS1307, ⟨2000, 12, 31, 10, 0, 29, 0, 366, -1⟩, false, true⟩
        UpdateVal.nearest).2.1.chipTime = ⟨2001, 1, 1, 10, 0, 0, 1, 1, -1⟩ ∧
    (31658400 : Int) ≠ 31572029 - 29 := by
  refine ⟨by decide, by decide, by decide, by decide⟩

/-- C5.  If anything raised inside `Clock.update_chip` (which the bare
`except:` turns into a `None` result — the first component of the
embedding), then `TimeKeeper.update_chip` returns the string
`'Invalid date/time'`, the `TimeKeeper` state is unchanged (in particular
`local_time_secs`), and `sync_time` is not reached; the clock state is
whatever the failed operation left behind. -/
theorem timekeeper_update_chip_failure (tk : TimeKeeperState) (cs : ClockState)
    (val : UpdateVal) (h : (Clock.update_chip cs val).1 = none) :
    TimeKeeper.update_chip tk cs val =
      some (some ("Invalid date/time"), tk, (Clock.update_chip cs val).2.1) := by
  unfold TimeKeeper.update_chip
  rcases hu : Clock.update_chip cs val with ⟨r, cs1, tr⟩
  rw [hu] at h
  simp only at h
  subst h
  rfl

/-- Witness for C5: a bus error during the `'nearest'` read (the first
chip access) yields the failure string and leaves both the local time and
the chip state untouched. -/
theorem timekeeper_update_chip_failure_witness :
    TimeKeeper.update_chip ⟨12345⟩
        ⟨ChipKind.PCF8523, ⟨2024, 1, 1, 0, 0, 0, 1, 1, -1⟩, false, false⟩ UpdateVal.nearest =
      some (some ("Invalid date/time"), ⟨12345⟩,
        ⟨ChipKind.PCF8523, ⟨2024, 1, 1, 0, 0, 0, 1, 1, -1⟩, false, false⟩) :=
  timekeeper_update_chip_failure _ _ _ (by decide)

/-- Counterexample for C6.  On the PCF8523 driver the set/get round trip
fails: setting 1 Hz writes code 6 (the datasheet's descending COF
encoding used by the setter), but the getter decodes register value 6
through a table written in ascending order and returns 32768 Hz. -/
theorem sqw_pcf8523_roundtrip_fails :
    PCF8523.square_wave_frequency_set 0 1 = (6, none) ∧
    PCF8523.square_wave_frequency_get 6 = some 32768 ∧
    (32768 : Int) ≠ 1 := by
  refine ⟨by decide, by decide, by decide⟩

/-- C6 (amended).  For every frequency the setter accepts, writing the
returned code into the control register and reading it back through the
getter yields the same frequency on the DS1307 and DS3231 drivers; on the
PCF8523 driver this holds only for 0 Hz and 4096 Hz, because the getter's
decode table lists the frequencies in ascending order while the setter's
codes descend, so the other six supported frequencies read back as their
mirror image in the table. -/
theorem sqw_set_get_roundtrip :
    (∀ (control : Nat) (f : Int), (DS1307.square_wave_frequency_set control f).2 = none →
      DS1307.square_wave_frequency_get (DS1307.square_wave_frequency_set control f).1 = some f) ∧
    (∀ (control : Nat) (f : Int), (DS3231.square_wave_frequency_set control f).2 = none →
      DS3231.square_wave_frequency_get (DS3231.square_wave_frequency_set control f).1 = some f) ∧
    (∀ (control : Nat) (f : Int), (f = 0 ∨ f = 4096) →
      PCF8523.square_wave_frequency_get (PCF8523.square_wave_frequency_set control f).1 = some f) := by
  refine ⟨?_, ?_, ?_⟩ <;> intro control f h <;>
    [(unfold DS1307.square_wave_frequency_set DS1307.available_frequencies at h ⊢);
     (unfold DS3231.square_wave_frequency_set DS3231.available_frequencies at h ⊢);
     (rcases h with h | h <;> subst h <;>
       unfold PCF8523.square_wave_frequency_set PCF8523.available_frequencies)] <;>
    split_ifs at * <;> simp_all <;> decide

/-- Witness for C6: one round-tripping frequency per driver. -/
theorem sqw_set_get_roundtrip_witness :
    DS1307.square_wave_frequency_get (DS1307.square_wave_frequency_set 0 32768).1 = some 32768 ∧
    DS3231.square_wave_frequency_get (DS3231.square_wave_frequency_set 0 1024).1 = some 1024 ∧
    PCF8523.square_wave_frequency_get (PCF8523.square_wave_frequency_set 0 4096).1 = some 4096 :=
  ⟨sqw_set_get_roundtrip.1 0 32768 (by decide),
   sqw_set_get_roundtrip.2.1 0 1024 (by decide),
   sqw_set_get_roundtrip.2.2 0 4096 (Or.inr rfl)⟩

/-- C7.  Per driver, the setter succeeds exactly on the chip's supported
frequency set (DS1307 `{0,1,4096,8192,32768}`, DS3231 `{0,1,1024,4096,8192}`,
PCF8523 `{0,1,32,1024,4096,8192,16384,32768}`); any other value raises
`ValueError` with a message naming the rejected value, and the control
register keeps its old value. -/
theorem sqw_setter_domain :
    (∀ (control : Nat) (f : Int),
      ((DS1307.square_wave_frequency_set control f).2 = none ↔
        (f = 0 ∨ f = 1 ∨ f = 4096 ∨ f = 8192 ∨ f = 32768)) ∧
      (¬(f = 0 ∨ f = 1 ∨ f = 4096 ∨ f = 8192 ∨ f = 32768) →
        DS1307.square_wave_frequency_set control f = (control, some (freq_error f)))) ∧
    (∀ (control : Nat) (f : Int),
      ((DS3231.square_wave_frequency_set control f).2 = none ↔
        (f = 0 ∨ f = 1 ∨ f = 1024 ∨ f = 4096 ∨ f = 8192)) ∧
      (¬(f = 0 ∨ f = 1 ∨ f = 1024 ∨ f = 4096 ∨ f = 8192) →
        DS3231.square_wave_frequency_set control f = (control, some (freq_error f)))) ∧
    (∀ (control : Nat) (f : Int),
      ((PCF8523.square_wave_frequency_set control f).2 = none ↔
        (f = 0 ∨ f = 1 ∨ f = 32 ∨ f = 1024 ∨ f = 4096 ∨ f = 8192 ∨ f = 16384 ∨ f = 32768)) ∧
      (¬(f = 0 ∨ f = 1 ∨ f = 32 ∨ f = 1024 ∨ f = 4096 ∨ f = 8192 ∨ f = 16384 ∨ f = 32768) →
        PCF8523.square_wave_frequency_set control f = (control, some (freq_error f)))) := by
  refine ⟨?_, ?_, ?_⟩ <;> intro control f <;>
    [(unfold DS1307.square_wave_frequency_set DS1307.available_frequencies);
     (unfold DS3231.square_wave_frequency_set DS3231.available_frequencies);
     (unfold PCF8523.square_wave_frequency_set PCF8523.available_frequencies)] <;>
    constructor <;> split_ifs <;> simp_all

/-- Witness for C7: the unsupported request 2048 Hz is rejected by all
three drivers with the message naming 2048, leaving the register value (9
here) unchanged. -/
theorem sqw_setter_domain_witness :
    DS1307.square_wave_frequency_set 9 2048 = (9, some (freq_error 2048)) ∧
    DS3231.square_wave_frequency_set 9 2048 = (9, some (freq_error 2048)) ∧
    PCF8523.square_wave_frequency_set 9 2048 = (9, some (freq_error 2048)) :=
  ⟨(sqw_setter_domain.1 9 2048).2 (by decide),
   (sqw_setter_domain.2.1 9 2048).2 (by decide),
   (sqw_setter_domain.2.2 9 2048).2 (by decide)⟩

/-- C9.  For every integer delta, `Clock.update_chip(delta)` reads the
second-boundary-aligned datetime and writes
`Time2000.datetime(Time2000.mktime(reading) + delta)` to the chip (first
conjunct: whenever the bus works and the two conversions return, the
chip's stored time afterwards is exactly that value).  In particular
(second conjunct), with delta = +60 from the aligned reading
2024-01-01T23:59:30 (epoch 757468770), the chip ends up at
2024-01-02T00:00:30 and the subsequent `sync_time` sets
`local_time_secs = 757468830`. -/
theorem update_chip_delta_spec :
    (∀ (s : ClockState) (d e : Int) (ts : StructTime),
        s.busOK = true → Time2000.mktime s.chipTime = some e →
        Time2000.datetime (e + d) = some ts →
        (Clock.update_chip s (UpdateVal.delta d)).2.1.chipTime = ts) ∧
    TimeKeeper.update_chip ⟨0⟩
        ⟨ChipKind.DS1307, ⟨2024, 1, 1, 23, 59, 30, 1, 1, -1⟩, false, true⟩ (UpdateVal.delta 60) =
      some (none, ⟨757468830⟩,
        ⟨ChipKind.DS1307, ⟨2024, 1, 2, 0, 0, 30, 2, 2, -1⟩, false, true⟩) := by
  constructor
  · intro s d e ts hb hm hd
    have hr : chip_read s = some s.chipTime := by simp [chip_read, hb]
    simp only [Clock.update_chip, hr, hm, hd]
    simp only [write_datetime, hb, if_true]
    cases hc : s.chip <;> simp [chip_read, hb] <;> cases Time2000.mktime ts <;> simp
  · decide

/-- Witness for C9: the first conjunct applied at the example state. -/
theorem update_chip_delta_spec_witness :
    (Clock.update_chip ⟨ChipKind.DS3231, ⟨2024, 1, 1, 23, 59, 30, 1, 1, -1⟩, false, true⟩
        (UpdateVal.delta 60)).2.1.chipTime = ⟨2024, 1, 2, 0, 0, 30, 2, 2, -1⟩ :=
  update_chip_delta_spec.1 _ 60 757468770 _ rfl (by decide) (by decide)

/-- The driver-level `datetime` setter never writes `True` to
`disable_oscillator`: its event list holds the register write and, on
DS3231/PCF8523, an `oscWrite false`. -/
theorem write_datetime_no_osc_true (s : ClockState) (ts : StructTime)
    (x : ClockState × List Event) (h : write_datetime s ts = some x) :
    Event.oscWrite true ∉ x.2 := by
  unfold write_datetime at h
  by_cases hb : s.busOK = true
  · rw [if_pos hb] at h
    cases hc : s.chip <;> rw [hc] at h <;> cases h <;> simp
  · rw [if_neg hb] at h
    exact absurd h (by simp)

/-- The integer-delta path performs no oscillator stop for any chip. -/
theorem update_chip_delta_no_osc_true (s : ClockState) (d : Int) :
    Event.oscWrite true ∉ (Clock.update_chip s (UpdateVal.delta d)).2.2 := by
  simp only [Clock.update_chip]
  split
  · simp
  · split
    · simp
    · split
      · simp
      · split
        · simp
        · rename_i s1 tr1 heq
          have hn := write_datetime_no_osc_true _ _ _ heq
          split
          · simpa using hn
          · split <;> simpa using hn

/-- If the selected chip is not a PCF8523, no path of `update_chip` ever
writes `True` to `disable_oscillator`. -/
theorem update_chip_no_osc_true_of_not_pcf (s : ClockState) (v : UpdateVal)
    (hp : s.pcf8523 = false) :
    Event.oscWrite true ∉ (Clock.update_chip s v).2.2 := by
  cases v with
  | delta d => exact update_chip_delta_no_osc_true s d
  | nearest =>
    simp only [Clock.update_chip, hp, Bool.false_eq_true, if_false]
    split
    · simp
    · split
      · simp
      · split
        · simp
        · split
          · simp
          · rename_i s2 tr2 heq
            have hn := write_datetime_no_osc_true _ _ _ heq
            split
            · simpa using hn
            · split <;> simpa using hn
  | absolute str =>
    simp only [Clock.update_chip, hp, Bool.false_eq_true, if_false]
    split
    · simp
    · split
      · simp
      · split
        · simp
        · rename_i s2 tr2 heq
          have hn := write_datetime_no_osc_true _ _ _ heq
          split
          · simpa using hn
          · split <;> simpa using hn

/-- With a dead bus, no path of `update_chip` ever writes `True` to
`disable_oscillator` (the first chip access raises before or instead of
the oscillator write). -/
theorem update_chip_no_osc_true_of_bus_dead (s : ClockState) (v : UpdateVal)
    (hb : s.busOK = false) :
    Event.oscWrite true ∉ (Clock.update_chip s v).2.2 := by
  have hr : chip_read s = none := by simp [chip_read, hb]
  cases v with
  | delta d => exact update_chip_delta_no_osc_true s d
  | nearest => simp [Clock.update_chip, hr]
  | absolute str =>
    cases hp : s.pcf8523 with
    | true =>
      have ho : write_osc s true = none := by simp [write_osc, hb]
      simp only [Clock.update_chip, hp, if_true, ho]
      split <;> simp
    | false => exact update_chip_no_osc_true_of_not_pcf s _ hp

/-- On the `'nearest'` path with a PCF8523, a working bus and a readable
chip time, the oscillator stop is the first hardware write. -/
theorem update_chip_nearest_osc_head (s : ClockState) (e : Int)
    (hp : s.pcf8523 = true) (hb : s.busOK = true)
    (hm : Time2000.mktime s.chipTime = some e) :
    ∃ rest, (Clock.update_chip s UpdateVal.nearest).2.2 = Event.oscWrite true :: rest := by
  have hr : chip_read s = some s.chipTime := by simp [chip_read, hb]
  have ho : write_osc s true = some ({ s with disableOsc := true },
      [Event.oscWrite true]) := by simp [write_osc, hb]
  simp only [Clock.update_chip, hr, hm, hp, if_true, ho]
  split
  · exact ⟨[], rfl⟩
  · split
    · exact ⟨[], rfl⟩
    · rename_i s2 tr2 heq
      split
      · exact ⟨tr2, rfl⟩
      · split <;> exact ⟨tr2, rfl⟩

/-- On the absolute-string path with a PCF8523, a working bus and a
parseable argument, the oscillator stop is the first hardware write. -/
theorem update_chip_absolute_osc_head (s : ClockState) (str : String)
    (p : Int × Int × Int × Int × Int × Int)
    (hp : s.pcf8523 = true) (hb : s.busOK = true) (hq : parse6 str = some p) :
    ∃ rest, (Clock.update_chip s (UpdateVal.absolute str)).2.2 =
      Event.oscWrite true :: rest := by
  obtain ⟨mon, day, year, hour, mn, sec⟩ := p
  have ho : write_osc s true = some ({ s with disableOsc := true },
      [Event.oscWrite true]) := by simp [write_osc, hb]
  simp only [Clock.update_chip, hq, hp, if_true, ho]
  split
  · exact ⟨[], rfl⟩
  · split
    · exact ⟨[], rfl⟩
    · rename_i s2 tr2 heq
      split
      · exact ⟨tr2, rfl⟩
      · split <;> exact ⟨tr2, rfl⟩

/-- On the `'nearest'` path a failed time read (bus works, but `mktime`
raises on the stored fields) aborts before the oscillator write. -/
theorem update_chip_nearest_no_osc_of_mktime_fails (s : ClockState)
    (hb : s.busOK = true) (hm : Time2000.mktime s.chipTime = none) :
    (Clock.update_chip s UpdateVal.nearest).2.2 = [] := by
  have hr : chip_read s = some s.chipTime := by simp [chip_read, hb]
  simp [Clock.update_chip, hr, hm]

/-- On the absolute-string path a parse failure aborts before the
oscillator write. -/
theorem update_chip_absolute_no_osc_of_parse_fails (s : ClockState) (str : String)
    (hq : parse6 str = none) :
    (Clock.update_chip s (UpdateVal.absolute str)).2.2 = [] := by
  simp [Clock.update_chip, hq]

/-- C8.  `Clock.update_chip` writes `True` to `disable_oscillator`
exactly when the attached chip is a PCF8523 and the operation is
`'nearest'` (with a working bus and readable chip time, which the code
consults first) or an absolute date/time string (with a working bus and a
parseable string); since a DS1307 or DS3231 is never `pcf8523`, no path
stops their oscillator, and the integer-delta path never stops the
oscillator for any chip.  Second conjunct: whenever the oscillator stop
happens it is the first hardware write of the operation, so it precedes
the datetime write (the event trace is chronological). -/
theorem update_chip_oscillator_discipline (s : ClockState) (v : UpdateVal) :
    (Event.oscWrite true ∈ (Clock.update_chip s v).2.2 ↔
      (s.pcf8523 = true ∧ s.busOK = true ∧
        ((v = UpdateVal.nearest ∧ ∃ e, Time2000.mktime s.chipTime = some e) ∨
         (∃ str, v = UpdateVal.absolute str ∧ ∃ p, parse6 str = some p)))) ∧
    (Event.oscWrite true ∈ (Clock.update_chip s v).2.2 →
      ∃ rest, (Clock.update_chip s v).2.2 = Event.oscWrite true :: rest) := by
  have key : Event.oscWrite true ∈ (Clock.update_chip s v).2.2 →
      (s.pcf8523 = true ∧ s.busOK = true ∧
        ((v = UpdateVal.nearest ∧ ∃ e, Time2000.mktime s.chipTime = some e) ∨
         (∃ str, v = UpdateVal.absolute str ∧ ∃ p, parse6 str = some p))) := by
    intro hmem
    cases hp : s.pcf8523 with
    | false => exact absurd hmem (update_chip_no_osc_true_of_not_pcf s v hp)
    | true =>
      cases hb : s.busOK with
      | false => exact absurd hmem (update_chip_no_osc_true_of_bus_dead s v hb)
      | true =>
        refine ⟨rfl, rfl, ?_⟩
        cases v with
        | delta d => exact absurd hmem (update_chip_delta_no_osc_true s d)
        | nearest =>
          cases hm : Time2000.mktime s.chipTime with
          | none =>
            rw [update_chip_nearest_no_osc_of_mktime_fails s hb hm] at hmem
            exact absurd hmem (by simp)
          | some e => exact Or.inl ⟨rfl, e, by simp [hm]⟩
        | absolute str =>
          cases hq : parse6 str with
          | none =>
            rw [update_chip_absolute_no_osc_of_parse_fails s str hq] at hmem
            exact absurd hmem (by simp)
          | some p => exact Or.inr ⟨str, rfl, p, by simp [hq]⟩
  have head : Event.oscWrite true ∈ (Clock.update_chip s v).2.2 →
      ∃ rest, (Clock.update_chip s v).2.2 = Event.oscWrite true :: rest := by
    intro hmem
    obtain ⟨hp, hb, hcase⟩ := key hmem
    rcases hcase with ⟨hv, e, hm⟩ | ⟨str, hv, p, hq⟩
    · subst hv
      exact update_chip_nearest_osc_head s e hp hb hm
    · subst hv
      exact update_chip_absolute_osc_head s str p hp hb hq
  refine ⟨⟨key, ?_⟩, head⟩
  rintro ⟨hp, hb, ⟨hv, e, hm⟩ | ⟨str, hv, p, hq⟩⟩
  · subst hv
    obtain ⟨rest, hrest⟩ := update_chip_nearest_osc_head s e hp hb hm
    rw [hrest]
    exact List.mem_cons_self _ _
  · subst hv
    obtain ⟨rest, hrest⟩ := update_chip_absolute_osc_head s str p hp hb hq
    rw [hrest]
    exact List.mem_cons_self _ _

/-- Witness for C8: on a PCF8523 with a working bus, `'nearest'` stops
the oscillator before the write, and the trace starts with that stop. -/
theorem update_chip_oscillator_discipline_witness :
    Event.oscWrite true ∈
      (Clock.update_chip
        ⟨ChipKind.PCF8523, ⟨2024, 1, 1, 0, 0, 0, 1, 1, -1⟩, false, true⟩
        UpdateVal.nearest).2.2 :=
  (update_chip_oscillator_discipline _ _).1.2
    ⟨rfl, rfl, Or.inl ⟨rfl, 757382400, by decide⟩⟩

/-- For months 1..12 the Python lookup `cumulative_days[mon-1]` succeeds
and returns `cumAt mon`. -/
theorem cum_lookup (m : Int) (h1 : 1 ≤ m) (h2 : m ≤ 12) :
    Time2000.pyGet Time2000.cumulative_days (m - 1) = some (cumAt m) := by
  interval_cases m <;> decide

/-- Going to the next year adds that year's length in days. -/
theorem pastYearDays_step (y : Int) (h : 0 ≤ y) :
    pastYearDays (y + 1) = pastYearDays y + (if y % 4 = 0 then 366 else 365) := by
  unfold pastYearDays
  split_ifs <;> omega

/-- `pastYearDays` is monotone on nonnegative years. -/
theorem pastYearDays_mono (a b : Int) (ha : 0 ≤ a) (hab : a ≤ b) :
    pastYearDays a ≤ pastYearDays b := by
  unfold pastYearDays
  split_ifs <;> omega

/-- The day index within a year is nonnegative. -/
theorem dayIdx_nonneg (leap : Bool) (m d : Int) (h1 : 1 ≤ m) (h2 : m ≤ 12)
    (h3 : 1 ≤ d) : 0 ≤ dayIdx leap m d := by
  interval_cases m <;> cases leap <;> simp [dayIdx, cumAt] <;> omega

/-- The day index of a valid day is below the year's length. -/
theorem dayIdx_lt (leap : Bool) (m d : Int) (h1 : 1 ≤ m) (h2 : m ≤ 12)
    (h3 : 1 ≤ d) (h4 : d ≤ daysInMonth m leap) :
    dayIdx leap m d < (if leap then (366 : Int) else 365) := by
  interval_cases m <;> cases leap <;> simp [dayIdx, cumAt, daysInMonth] at * <;> omega

/-- The day index is strictly monotone in (month, day) over valid days. -/
theorem dayIdx_mono (leap : Bool) (m1 d1 m2 d2 : Int)
    (hm1 : 1 ≤ m1) (hm2 : m1 ≤ 12) (hd1 : 1 ≤ d1) (hd2 : d1 ≤ daysInMonth m1 leap)
    (hm3 : 1 ≤ m2) (hm4 : m2 ≤ 12) (hd3 : 1 ≤ d2)
    (hlt : m1 < m2 ∨ (m1 = m2 ∧ d1 < d2)) :
    dayIdx leap m1 d1 < dayIdx leap m2 d2 := by
  rcases hlt with hlt | ⟨rfl, hlt⟩
  · interval_cases m1 <;> interval_cases m2 <;> cases leap <;>
      simp [dayIdx, cumAt, daysInMonth] at * <;> omega
  · unfold dayIdx
    omega

/-- On valid date/times `Time2000.mktime` succeeds and equals the closed
form `epochOf`. -/
theorem mktime_valid_eq (dt : StructTime) (h : ValidDT dt) :
    Time2000.mktime dt = some (epochOf dt) := by
  obtain ⟨h1, h2, h3, h4, h5, h6, h7, h8, h9, h10, h11, h12⟩ := h
  have hy : dt.tm_year % 100 = dt.tm_year - 2000 := by omega
  have hcum := cum_lookup dt.tm_mon h3 h4
  unfold Time2000.mktime
  rw [hy]
  unfold Time2000._seconds_before_today
  rw [hcum]
  simp only [Option.map_some']
  congr 1
  rw [Int.tdiv_eq_ediv (by omega : (0:Int) ≤ dt.tm_year - 2000) (by norm_num)]
  unfold epochOf pastYearDays dayIdx
  simp only [Time2000.Seconds_per_day, Time2000.Seconds_per_hour,
    Time2000.Seconds_per_minute, decide_eq_true_eq]
  split_ifs <;> ring

/-- C10.  `Time2000.mktime` is strictly monotone on valid date/times of
2000..2099: if `dt1` precedes `dt2` in lexicographic
(year, month, day, hour, minute, second) order, both convert successfully
and the epoch seconds strictly increase. -/
theorem mktime_strict_mono (dt1 dt2 : StructTime)
    (h1 : ValidDT dt1) (h2 : ValidDT dt2) (hlt : lexLt dt1 dt2) :
    ∃ e1 e2, Time2000.mktime dt1 = some e1 ∧ Time2000.mktime dt2 = some e2 ∧
      e1 < e2 := by
  refine ⟨epochOf dt1, epochOf dt2, mktime_valid_eq dt1 h1, mktime_valid_eq dt2 h2, ?_⟩
  obtain ⟨a1, a2, a3, a4, a5, a6, a7, a8, a9, a10, a11, a12⟩ := h1
  obtain ⟨b1, b2, b3, b4, b5, b6, b7, b8, b9, b10, b11, b12⟩ := h2
  unfold epochOf
  rcases hlt with hY | ⟨hEqY, hR⟩
  · -- different years
    have hd2 := dayIdx_nonneg (decide ((dt2.tm_year - 2000) % 4 = 0))
      dt2.tm_mon dt2.tm_mday b3 b4 b5
    have hmono := pastYearDays_mono (dt1.tm_year - 2000 + 1) (dt2.tm_year - 2000)
      (by omega) (by omega)
    have hstep := pastYearDays_step (dt1.tm_year - 2000) (by omega)
    have hdlt := dayIdx_lt (decide ((dt1.tm_year - 2000) % 4 = 0))
      dt1.tm_mon dt1.tm_mday a3 a4 a5 a6
    by_cases hp : (dt1.tm_year - 2000) % 4 = 0
    · have hL : decide ((dt1.tm_year - 2000) % 4 = 0) = true := by simp [hp]
      rw [hL] at hdlt ⊢
      rw [if_pos hp] at hstep
      simp only [if_true] at hdlt
      omega
    · have hL : decide ((dt1.tm_year - 2000) % 4 = 0) = false := by simp [hp]
      rw [hL] at hdlt ⊢
      rw [if_neg hp] at hstep
      simp only [Bool.false_eq_true, if_false] at hdlt
      omega
  · -- same year
    rw [hEqY] at a6 ⊢
    rcases hR with hM | ⟨hEqM, hR⟩
    · have hmono := dayIdx_mono (decide ((dt2.tm_year - 2000) % 4 = 0))
        dt1.tm_mon dt1.tm_mday dt2.tm_mon dt2.tm_mday a3 a4 a5 a6 b3 b4 b5
        (Or.inl hM)
      omega
    · rcases hR with hD | ⟨hEqD, hR⟩
      · have hmono := dayIdx_mono (decide ((dt2.tm_year - 2000) % 4 = 0))
          dt1.tm_mon dt1.tm_mday dt2.tm_mon dt2.tm_mday a3 a4 a5 a6 b3 b4 b5
          (Or.inr ⟨hEqM, hD⟩)
        omega
      · rw [hEqM, hEqD]
        rcases hR with hH | ⟨hEqH, hR⟩
        · omega
        · rcases hR with hMi | ⟨hEqMi, hS⟩ <;> omega

/-- Witness for C10: the leap-day boundary 2024-02-29T23:59:59 precedes
2024-03-01T00:00:00 and the epoch values strictly increase. -/
theorem mktime_strict_mono_witness :
    ∃ e1 e2,
      Time2000.mktime ⟨2024, 2, 29, 23, 59, 59, 4, 60, -1⟩ = some e1 ∧
      Time2000.mktime ⟨2024, 3, 1, 0, 0, 0, 5, 61, -1⟩ = some e2 ∧ e1 < e2 :=
  mktime_strict_mono _ _ (by decide) (by decide) (by decide)

end MatrixClock
